import Mathlib

/-!
Verification development for `Snippets/StatusLine.py`, an i3bar status-line
program.  The Python program is embedded shallowly:

* JSON values are the inductive `Json`; `dumps` mirrors `json.dumps` with its
  default separators and `ensure_ascii` escaping, and `json_loads` mirrors
  `json.loads` (restricted to the integer-number fragment of the grammar; the
  program never produces or consumes float literals, and Lean strings range
  over Unicode scalar values, so lone surrogates are unrepresentable).
* External processes and files are snapshots in an `Env` record; a command's
  outcome is a `CmdResult` (spawn failure, or exit code plus stdout).
* Python exceptions are the `Err` error type threaded through `Except`.
* Each `Block` subclass of the source becomes a `BlockKind`; a block's dict
  payload becomes the `Block` structure whose JSON field order matches the
  dict insertion order of `Block.__init__`.
* Fire-and-forget `subprocess.run` side effects (launching helper programs)
  are recorded as command traces in `StepOut.cmds`.
-/

namespace StatusLine

/-! ### JSON values and `json.dumps` -/

inductive Json where
  | null
  | bool (b : Bool)
  | num (n : Int)
  | str (s : String)
  | arr (elems : List Json)
  | obj (fields : List (String × Json))
deriving Repr, Inhabited, BEq

def hexDigit (n : Nat) : Char :=
  if n < 10 then Char.ofNat (48 + n) else Char.ofNat (87 + n)

def hex4 (n : Nat) : String :=
  String.mk [hexDigit (n / 4096 % 16), hexDigit (n / 256 % 16),
             hexDigit (n / 16 % 16), hexDigit (n % 16)]

/-- One character of `json.dumps` output with the default `ensure_ascii=True`:
quote, backslash and the five short escapes are special-cased, every other
character outside the printable ASCII range `0x20`–`0x7e` is `\uXXXX`-escaped
(as a surrogate pair beyond the BMP). -/
def escapeChar (c : Char) : String :=
  if c = '"' then "\\\""
  else if c = '\\' then "\\\\"
  else if c = '\n' then "\\n"
  else if c = '\t' then "\\t"
  else if c = '\r' then "\\r"
  else if c = Char.ofNat 8 then "\\b"
  else if c = Char.ofNat 12 then "\\f"
  else if c.toNat < 32 || 126 < c.toNat then
    if c.toNat < 65536 then "\\u" ++ hex4 c.toNat
    else
      let n := c.toNat - 65536
      "\\u" ++ hex4 (55296 + n / 1024) ++ "\\u" ++ hex4 (56320 + n % 1024)
  else String.singleton c

def dumpString (s : String) : String :=
  "\"" ++ String.join (s.data.map escapeChar) ++ "\""

mutual

/-- `json.dumps` with the default separators `(", ", ": ")`. -/
def dumps : Json → String
  | .null => "null"
  | .bool true => "true"
  | .bool false => "false"
  | .num n => toString n
  | .str s => dumpString s
  | .arr es => "[" ++ dumpsArr es ++ "]"
  | .obj fs => "\x7b" ++ dumpsObj fs ++ "\x7d"

def dumpsArr : List Json → String
  | [] => ""
  | [e] => dumps e
  | e :: e' :: es => dumps e ++ ", " ++ dumpsArr (e' :: es)

def dumpsObj : List (String × Json) → String
  | [] => ""
  | [(k, v)] => dumpString k ++ ": " ++ dumps v
  | (k, v) :: f :: fs => dumpString k ++ ": " ++ dumps v ++ ", " ++ dumpsObj (f :: fs)

end

/-! ### Python exceptions and subprocess results -/

/-- The Python exception classes the embedded code paths can raise. -/
inductive Err where
  | calledProcessError
  | fileNotFoundError
  | indexError
  | keyError
  | typeError
  | jsonDecodeError
deriving Repr, DecidableEq

/-- Outcome of one external command: the spawn itself may fail
(`FileNotFoundError`), otherwise the process exits with a code and stdout. -/
inductive CmdResult where
  | spawnFail
  | exited (code : Nat) (stdout : String)
deriving Repr, DecidableEq

/-- `sh_out` with the default `check=True`: raises `CalledProcessError` on a
nonzero exit status, otherwise returns stdout. -/
def sh_out (r : CmdResult) : Except Err String :=
  match r with
  | .spawnFail => .error .fileNotFoundError
  | .exited code out => if code = 0 then .ok out else .error .calledProcessError

/-- `sh_out` called with `check=False`: only a spawn failure raises. -/
def sh_out_nocheck (r : CmdResult) : Except Err String :=
  match r with
  | .spawnFail => .error .fileNotFoundError
  | .exited _ out => .ok out

/-! ### Python string and container helpers -/

def pySplitlinesAux : List Char → List Char → List String
  | [], cur => if cur = [] then [] else [String.mk cur.reverse]
  | '\n' :: rest, cur => String.mk cur.reverse :: pySplitlinesAux rest []
  | x :: rest, cur => pySplitlinesAux rest (x :: cur)

/-- Python `str.splitlines` (over `\n`-separated text): split on newlines,
with no trailing empty line for text ending in a newline. -/
def pySplitlines (s : String) : List String := pySplitlinesAux s.data []

def pySplitWsAux : List Char → List Char → List String
  | [], cur => if cur = [] then [] else [String.mk cur.reverse]
  | x :: rest, cur =>
    if x.isWhitespace then
      if cur = [] then pySplitWsAux rest []
      else String.mk cur.reverse :: pySplitWsAux rest []
    else pySplitWsAux rest (x :: cur)

/-- Python `str.split()` with no argument: split on whitespace runs,
dropping empty fields. -/
def pySplitWs (s : String) : List String := pySplitWsAux s.data []

def pySplitCharAux (c : Char) : List Char → List Char → List String
  | [], cur => [String.mk cur.reverse]
  | x :: rest, cur =>
    if x = c then String.mk cur.reverse :: pySplitCharAux c rest []
    else pySplitCharAux c rest (x :: cur)

/-- Python `str.split(sep)` with a one-character separator (empty fields
kept). -/
def pySplitChar (s : String) (c : Char) : List String :=
  pySplitCharAux c s.data []

/-- Python `line.startswith('[')`. -/
def startsWithBracket (s : String) : Bool :=
  match s.data with
  | c :: _ => c = '['
  | [] => false

/-- Python `str.lstrip(',')`. -/
def pyLstripComma (s : String) : String :=
  String.mk (s.data.dropWhile (· = ','))

/-- Python `s[:-1]`. -/
def pyDropLast (s : String) : String := s.dropRight 1

/-- Python list indexing, raising `IndexError` when out of range. -/
def pyIdx {α : Type} (l : List α) (i : Nat) : Except Err α :=
  match l[i]? with
  | some a => .ok a
  | none => .error .indexError

/-- Python dict lookup on a string-keyed dict, raising `KeyError`. -/
def pyDictGet {α : Type} (d : List (String × α)) (k : String) : Except Err α :=
  match d.find? (fun p => p.1 == k) with
  | some p => .ok p.2
  | none => .error .keyError

/-- Python subscript `event[k]` on a decoded JSON value: a dict looks the key
up (later duplicates win, raising `KeyError` when absent), any non-dict value
raises `TypeError`. -/
def jGetField (j : Json) (k : String) : Except Err Json :=
  match j with
  | .obj fs =>
    match fs.reverse.find? (fun p => p.1 == k) with
    | some p => .ok p.2
    | none => .error .keyError
  | _ => .error .typeError

/-- Python `==` between a decoded JSON value and an int literal
(`True == 1` holds in Python; other mismatched types compare unequal). -/
def jEqInt (j : Json) (n : Int) : Bool :=
  match j with
  | .num m => m == n
  | .bool b => (if b then (1 : Int) else 0) == n
  | _ => false

/-! ### `json.loads` (recursive-descent parser with fuel) -/

def isJsonWs (c : Char) : Bool :=
  c = ' ' || c = '\t' || c = '\n' || c = '\r'

def skipWs (cs : List Char) : List Char := cs.dropWhile isJsonWs

def hexVal (c : Char) : Option Nat :=
  if '0' ≤ c ∧ c ≤ '9' then some (c.toNat - 48)
  else if 'a' ≤ c ∧ c ≤ 'f' then some (c.toNat - 87)
  else if 'A' ≤ c ∧ c ≤ 'F' then some (c.toNat - 55)
  else none

def parseHex4 : List Char → Except Err (Nat × List Char)
  | c1 :: c2 :: c3 :: c4 :: rest =>
    match hexVal c1, hexVal c2, hexVal c3, hexVal c4 with
    | some a, some b, some c, some d => .ok (a * 4096 + b * 256 + c * 16 + d, rest)
    | _, _, _, _ => .error .jsonDecodeError
  | _ => .error .jsonDecodeError

/-- Body of a JSON string literal (after the opening quote), strict mode:
raw control characters are rejected, surrogate-pair escapes are combined. -/
def parseStringBody : Nat → List Char → List Char → Except Err (String × List Char)
  | 0, _, _ => .error .jsonDecodeError
  | fuel + 1, cs, acc =>
    match cs with
    | [] => .error .jsonDecodeError
    | '"' :: rest => .ok (String.mk acc.reverse, rest)
    | '\\' :: rest =>
      match rest with
      | '"' :: r => parseStringBody fuel r ('"' :: acc)
      | '\\' :: r => parseStringBody fuel r ('\\' :: acc)
      | '/' :: r => parseStringBody fuel r ('/' :: acc)
      | 'b' :: r => parseStringBody fuel r (Char.ofNat 8 :: acc)
      | 'f' :: r => parseStringBody fuel r (Char.ofNat 12 :: acc)
      | 'n' :: r => parseStringBody fuel r ('\n' :: acc)
      | 'r' :: r => parseStringBody fuel r ('\r' :: acc)
      | 't' :: r => parseStringBody fuel r ('\t' :: acc)
      | 'u' :: r =>
        match parseHex4 r with
        | .error e => .error e
        | .ok (n, r2) =>
          if 55296 ≤ n ∧ n < 56320 then
            match r2 with
            | '\\' :: 'u' :: r3 =>
              match parseHex4 r3 with
              | .error e => .error e
              | .ok (m, r4) =>
                if 56320 ≤ m ∧ m < 57344 then
                  parseStringBody fuel r4
                    (Char.ofNat (65536 + (n - 55296) * 1024 + (m - 56320)) :: acc)
                else .error .jsonDecodeError
            | _ => .error .jsonDecodeError
          else if 56320 ≤ n ∧ n < 57344 then .error .jsonDecodeError
          else parseStringBody fuel r2 (Char.ofNat n :: acc)
      | _ => .error .jsonDecodeError
    | c :: rest =>
      if c.toNat < 32 then .error .jsonDecodeError
      else parseStringBody fuel rest (c :: acc)

def natOfDigits (ds : List Char) : Nat :=
  ds.foldl (fun a c => a * 10 + (c.toNat - 48)) 0

/-- JSON number literal, restricted to integers: an optional minus, then
digits without a redundant leading zero; a fraction or exponent part is
outside the model and rejected. -/
def parseNumber (cs : List Char) : Except Err (Json × List Char) :=
  let p : Bool × List Char := match cs with
    | '-' :: r => (true, r)
    | _ => (false, cs)
  let ds := p.2.takeWhile (·.isDigit)
  let rest := p.2.dropWhile (·.isDigit)
  if ds = [] then .error .jsonDecodeError
  else if ds.head? = some '0' ∧ 1 < ds.length then .error .jsonDecodeError
  else
    match rest with
    | '.' :: _ => .error .jsonDecodeError
    | 'e' :: _ => .error .jsonDecodeError
    | 'E' :: _ => .error .jsonDecodeError
    | _ =>
      let v : Int := Int.ofNat (natOfDigits ds)
      .ok (.num (if p.1 then -v else v), rest)

mutual

def parseValue : Nat → List Char → Except Err (Json × List Char)
  | 0, _ => .error .jsonDecodeError
  | fuel + 1, cs =>
    match skipWs cs with
    | 'n' :: 'u' :: 'l' :: 'l' :: rest => .ok (.null, rest)
    | 't' :: 'r' :: 'u' :: 'e' :: rest => .ok (.bool true, rest)
    | 'f' :: 'a' :: 'l' :: 's' :: 'e' :: rest => .ok (.bool false, rest)
    | '"' :: rest =>
      match parseStringBody fuel rest [] with
      | .error e => .error e
      | .ok (s, r) => .ok (.str s, r)
    | '[' :: rest =>
      match skipWs rest with
      | ']' :: r2 => .ok (.arr [], r2)
      | r2 => parseItems fuel r2 []
    | '\x7b' :: rest =>
      match skipWs rest with
      | '\x7d' :: r2 => .ok (.obj [], r2)
      | r2 => parseMembers fuel r2 []
    | cs' => parseNumber cs'

def parseItems : Nat → List Char → List Json → Except Err (Json × List Char)
  | 0, _, _ => .error .jsonDecodeError
  | fuel + 1, cs, acc =>
    match parseValue fuel cs with
    | .error e => .error e
    | .ok (v, rest) =>
      match skipWs rest with
      | ',' :: r2 => parseItems fuel r2 (acc ++ [v])
      | ']' :: r2 => .ok (.arr (acc ++ [v]), r2)
      | _ => .error .jsonDecodeError

def parseMembers : Nat → List Char → List (String × Json) →
    Except Err (Json × List Char)
  | 0, _, _ => .error .jsonDecodeError
  | fuel + 1, cs, acc =>
    match skipWs cs with
    | '"' :: rest =>
      match parseStringBody fuel rest [] with
      | .error e => .error e
      | .ok (k, r2) =>
        match skipWs r2 with
        | ':' :: r3 =>
          match parseValue fuel r3 with
          | .error e => .error e
          | .ok (v, r4) =>
            match skipWs r4 with
            | ',' :: r5 => parseMembers fuel r5 (acc ++ [(k, v)])
            | '\x7d' :: r5 => .ok (.obj (acc ++ [(k, v)]), r5)
            | _ => .error .jsonDecodeError
        | _ => .error .jsonDecodeError
    | _ => .error .jsonDecodeError

end

/-- `json.loads`: parse one JSON document, requiring only trailing
whitespace after it (a Python `Extra data` error otherwise). -/
def json_loads (s : String) : Except Err Json :=
  match parseValue (2 * s.length + 2) s.data with
  | .error e => .error e
  | .ok (v, rest) => if skipWs rest = [] then .ok v else .error .jsonDecodeError

/-! ### The clock and `strftime` -/

/-- A wall-clock reading, to the fields the format string uses. -/
structure DateTime where
  year : Nat
  month : Nat
  day : Nat
  hour : Nat
  minute : Nat
deriving Repr, DecidableEq

def pad2 (n : Nat) : String :=
  if n < 10 then "0" ++ toString n else toString n

def pad4 (n : Nat) : String :=
  if n < 10 then "000" ++ toString n
  else if n < 100 then "00" ++ toString n
  else if n < 1000 then "0" ++ toString n
  else toString n

/-- `now.strftime(' %Y/%m/%d  %H:%M')` from `BDateTime.out_once`. -/
def strftimeLine (d : DateTime) : String :=
  " " ++ pad4 d.year ++ "/" ++ pad2 d.month ++ "/" ++ pad2 d.day ++
    "  " ++ pad2 d.hour ++ ":" ++ pad2 d.minute

/-! ### The external environment -/

/-- Snapshot of every external data source the blocks read: the outcome of
each external command, the `/proc/loadavg` file (`none` when the read
raises), and the clock. -/
structure Env where
  df : CmdResult
  free : CmdResult
  loadavg : Option String
  nmcliGeneral : CmdResult
  nmcliConnShow : CmdResult
  pamixer : CmdResult
  now : DateTime
deriving Repr, DecidableEq

/-! ### Blocks -/

/-- The closed set of `Block` subclasses, in source order. -/
inductive BlockKind where
  | BCPU
  | BRAM
  | BDisk
  | BVolume
  | BNetwork
  | BDateTime
deriving Repr, DecidableEq

def BlockKind.className : BlockKind → String
  | .BCPU => "BCPU"
  | .BRAM => "BRAM"
  | .BDisk => "BDisk"
  | .BVolume => "BVolume"
  | .BNetwork => "BNetwork"
  | .BDateTime => "BDateTime"

/-- A block's dict payload (plus its dynamic class, `kind`).  Field order
follows the dict insertion order of `Block.__init__`: the `DEFAULTS` keys,
then `name` and `instance`. -/
structure Block where
  kind : BlockKind
  full_text : String
  border : String
  border_top : Int
  border_bottom : Int
  border_left : Int
  border_right : Int
  min_width : Int
  align : String
  name : String
  instance_id : String
deriving Repr, DecidableEq

/-- `Block.__init__` as `StatusLine.main` calls it (no keyword overrides):
the `DEFAULTS` entries, then `name` (the class name) and `instance`. -/
def Block.init (k : BlockKind) (inst : String) : Block :=
  { kind := k
    full_text := ""
    border := "#282828"
    border_top := 0
    border_bottom := 2
    border_left := 0
    border_right := 0
    min_width := 50
    align := "center"
    name := k.className
    instance_id := inst }

/-- The JSON object `json.dumps` sees for one block: the dict entries in
insertion order. -/
def Block.toJson (b : Block) : Json :=
  .obj [("full_text", .str b.full_text), ("border", .str b.border),
        ("border_top", .num b.border_top), ("border_bottom", .num b.border_bottom),
        ("border_left", .num b.border_left), ("border_right", .num b.border_right),
        ("min_width", .num b.min_width), ("align", .str b.align),
        ("name", .str b.name), ("instance", .str b.instance_id)]

/-- `BNetwork.ICONS`. -/
def ICONS_network : List (String × String) :=
  [("none", ""), ("limited", ""), ("full", "")]

/-- `BVolume.ICONS`. -/
def ICONS_volume : List (String × String) :=
  [("false", ""), ("true", "")]

/-- The data-gathering part of each variant's `out_once`: compute the new
`full_text` from the external environment, or raise.  Each branch mirrors
the corresponding method body, in evaluation order. -/
def gather (k : BlockKind) (e : Env) : Except Err String :=
  match k with
  | .BDateTime => .ok (strftimeLine e.now)
  | .BDisk => do
    let out ← sh_out e.df
    let row ← pyIdx (pySplitlines out) 1
    let available ← pyIdx (pySplitWs row) 3
    .ok (" " ++ available ++ "iB")
  | .BRAM => do
    let out ← sh_out e.free
    let row ← pyIdx (pySplitlines out) 1
    let available ← pyIdx (pySplitWs row) 6
    .ok (" " ++ available ++ "B")
  | .BCPU => do
    let text ← match e.loadavg with
      | some t => Except.ok t
      | none => Except.error Err.fileNotFoundError
    let load ← pyIdx (pySplitWs text) 1
    .ok (" " ++ load)
  | .BNetwork => do
    let gen ← sh_out e.nmcliGeneral
    let connectivity ← pyIdx (pySplitChar gen ':') 1
    let connOut ← sh_out e.nmcliConnShow
    let connection := pySplitChar connOut ':'
    let interfaceFull ← pyIdx connection 3
    let interface := pyDropLast interfaceFull
    let name ← pyIdx connection 0
    let icon ← pyDictGet ICONS_network connectivity
    .ok (icon ++ " " ++ interface ++ " " ++ name)
  | .BVolume => do
    let pamixer ← sh_out_nocheck e.pamixer
    let mute ← pyIdx (pySplitWs pamixer) 0
    let volume ← pyIdx (pySplitWs pamixer) 1
    let icon ← pyDictGet ICONS_volume mute
    .ok (icon ++ " " ++ volume ++ "%")

/-! ### The StatusLine engine -/

/-- `StatusLine` state: the `blocks` dict (instance id → block), in
insertion order. -/
structure SLState where
  blocks : List (String × Block)
deriving Repr, DecidableEq

/-- `StatusLine.print`: the single stdout line one render emits, namely
`print(',', json.dumps(list(self.blocks.values())))`. -/
def sl_print (st : SLState) : String :=
  ", " ++ dumps (.arr (st.blocks.map (fun p => p.2.toJson)))

/-- Observable outcome of one engine step: the new state, the stdout lines
printed, the side-effect commands spawned, the instance ids dispatched to
by the click router, and the instance ids visited by the signal broadcast. -/
structure StepOut where
  state : SLState
  lines : List String
  cmds : List (List String)
  dispatched : List String
  signaled : List String
deriving Repr, DecidableEq

def StepOut.noop (st : SLState) : StepOut := ⟨st, [], [], [], []⟩

/-- `out_once` of the block at position `i` of the registry: recompute its
`full_text` from the environment (any error propagates), then
`self.statusline.print()`. -/
def out_once (e : Env) (st : SLState) (i : Nat) : Except Err StepOut := do
  let kb ← pyIdx st.blocks i
  let text ← gather kb.2.kind e
  let st' : SLState := ⟨st.blocks.set i (kb.1, { kb.2 with full_text := text })⟩
  .ok ⟨st', [sl_print st'], [], [], []⟩

/-- The `subprocess.run` call `BVolume.on_click` makes for a given decoded
`event['button']` value, if any. -/
def bvolume_cmds (btn : Json) : List (List String) :=
  if jEqInt btn 1 then [["pamixer", "--toggle-mute"]]
  else if jEqInt btn 3 then [["pavucontrol"]]
  else if jEqInt btn 4 then [["pamixer", "--increase", "5"]]
  else if jEqInt btn 5 then [["pamixer", "--decrease", "5"]]
  else []

/-- `on_click` of the block at position `i`: the base class calls
`out_once`; `BNetwork` overrides it (launch the connection editor on button
1, never update); `BVolume` overrides it (mixer side effect by button, then
`out_once`). -/
def on_click (e : Env) (st : SLState) (i : Nat) (ev : Json) :
    Except Err StepOut := do
  let kb ← pyIdx st.blocks i
  match kb.2.kind with
  | .BNetwork => do
    let btn ← jGetField ev "button"
    if jEqInt btn 1 then .ok ⟨st, [], [["nm-connection-editor"]], [], []⟩
    else .ok (StepOut.noop st)
  | .BVolume => do
    let btn ← jGetField ev "button"
    let r ← out_once e st i
    .ok { r with cmds := bvolume_cmds btn ++ r.cmds }
  | _ => out_once e st i

/-- Position of the block with the given instance id in the registry. -/
def findBlockIdx (st : SLState) (k : String) : Option Nat :=
  st.blocks.findIdx? (fun p => p.1 == k)

/-- One iteration of `StatusLine.click_handler` on one stdin line: skip
lines starting with `[`, else strip leading commas, `json.loads` the rest,
and dispatch `self.blocks[event['instance']].on_click(event)`.  Any raised
error (decode failure, missing key, unknown id) propagates and would end
the router task. -/
def click_line (e : Env) (st : SLState) (line : String) : Except Err StepOut :=
  if startsWithBracket line then .ok (StepOut.noop st)
  else do
    let ev ← json_loads (pyLstripComma line)
    let instVal ← jGetField ev "instance"
    match instVal with
    | .str s =>
      match findBlockIdx st s with
      | some i => do
        let r ← on_click e st i ev
        .ok { r with dispatched := [s] }
      | none => .error .keyError
    | .arr _ => .error .typeError
    | .obj _ => .error .typeError
    | _ => .error .keyError

/-- `signal.SIGRTMIN` on Linux. -/
def SIGRTMIN : Nat := 34

/-- The one signal `StatusLine.main` registers: `signal.SIGRTMIN + 15`. -/
def RTSIG : Nat := SIGRTMIN + 15

/-- `on_signal` of the block at position `i`: a no-op for every variant
except `BVolume`, which re-runs `out_once` when the signal is
`SIGRTMIN + 15`. -/
def on_signal (e : Env) (st : SLState) (i : Nat) (sig : Nat) :
    Except Err StepOut := do
  let kb ← pyIdx st.blocks i
  match kb.2.kind with
  | .BVolume => if sig = RTSIG then out_once e st i else .ok (StepOut.noop st)
  | _ => .ok (StepOut.noop st)

/-- The `for block in self.blocks.values()` loop of
`StatusLine.signal_handler`, by position; `signaled` records the ids
visited, in order. -/
def signal_go (e : Env) (sig : Nat) (st : SLState) (i : Nat) :
    Nat → Except Err StepOut
  | 0 => .ok (StepOut.noop st)
  | n + 1 => do
    let kb ← pyIdx st.blocks i
    let r ← on_signal e st i sig
    let rest ← signal_go e sig r.state (i + 1) n
    .ok ⟨rest.state, r.lines ++ rest.lines, r.cmds ++ rest.cmds, [],
         kb.1 :: rest.signaled⟩

/-- `StatusLine.signal_handler`: propagate `sig` to all the blocks, in
registration order. -/
def signal_handler (e : Env) (st : SLState) (sig : Nat) : Except Err StepOut :=
  signal_go e sig st 0 st.blocks.length

/-! ### Startup (`StatusLine.main`) -/

/-- Python dict insert `self.blocks[id] = block`: overwrite in place if the
key exists, else append. -/
def dictInsert (d : List (String × Block)) (k : String) (v : Block) :
    List (String × Block) :=
  if d.any (fun p => p.1 == k) then
    d.map (fun p => if p.1 == k then (k, v) else p)
  else d ++ [(k, v)]

/-- `StatusLine.add_block`: construct the block and insert it into the
registry under its instance id. -/
def add_block (st : SLState) (k : BlockKind) (inst : String) : SLState :=
  ⟨dictInsert st.blocks inst (Block.init k inst)⟩

/-- The registry `StatusLine.main` builds, given the six instance-id
strings Python assigns (`str(id(self))`): BCPU, BRAM, BDisk, BVolume,
BNetwork, BDateTime, in that order. -/
def mainState (i1 i2 i3 i4 i5 i6 : String) : SLState :=
  add_block (add_block (add_block (add_block (add_block (add_block
    ⟨[]⟩ .BCPU i1) .BRAM i2) .BDisk i3) .BVolume i4) .BNetwork i5) .BDateTime i6

/-- The protocol header object of the preamble. -/
def headerJson : Json := .obj [("version", .num 1), ("click_events", .bool true)]

/-- The three stdout lines `StatusLine.main` prints before starting any
task. -/
def preambleLines : List String := [dumps headerJson, "[", "[]"]

/-- Everything `StatusLine.main` does before entering the event loop: print
the preamble, then build the registry.  No stdin input is consumed here. -/
def main_startup (i1 i2 i3 i4 i5 i6 : String) : SLState × List String :=
  (mainState i1 i2 i3 i4 i5 i6, preambleLines)

/-! ### Reachable engine states -/

/-- `blk k inst t` is a block as constructed at startup whose `full_text`
has since been set to `t`. -/
def blk (k : BlockKind) (inst : String) (t : String) : Block :=
  { Block.init k inst with full_text := t }

/-- The registry shape every reachable state has: the six startup blocks in
registration order, each with some current `full_text`. -/
def regWith (i1 i2 i3 i4 i5 i6 t1 t2 t3 t4 t5 t6 : String) :
    List (String × Block) :=
  [(i1, blk .BCPU i1 t1), (i2, blk .BRAM i2 t2), (i3, blk .BDisk i3 t3),
   (i4, blk .BVolume i4 t4), (i5, blk .BNetwork i5 t5),
   (i6, blk .BDateTime i6 t6)]

/-- States reachable from `init` by any interleaving of block updates,
router-dispatched clicks and signal broadcasts, each step under an
arbitrary environment snapshot. -/
inductive Reachable (init : SLState) : SLState → Prop where
  | refl : Reachable init init
  | update {e : Env} {st : SLState} {r : StepOut} {i : Nat} :
      Reachable init st → out_once e st i = .ok r → Reachable init r.state
  | click {e : Env} {st : SLState} {r : StepOut} {line : String} :
      Reachable init st → click_line e st line = .ok r → Reachable init r.state
  | signal {e : Env} {st : SLState} {r : StepOut} {sig : Nat} :
      Reachable init st → signal_handler e st sig = .ok r → Reachable init r.state

/-- A state whose registry still has the six startup blocks, in
registration order, with some current display texts. -/
def shaped (i1 i2 i3 i4 i5 i6 : String) (st : SLState) : Prop :=
  ∃ t1 t2 t3 t4 t5 t6,
    st.blocks = regWith i1 i2 i3 i4 i5 i6 t1 t2 t3 t4 t5 t6

/-! ### Concrete data for evaluation -/

/-- A healthy snapshot of every external data source. -/
def envW : Env :=
  { df := .exited 0 "Filesystem Size Used Avail Use% Mounted on\n/dev/sda2 233G 76G 146G 35% /\n"
    free := .exited 0 "  total used free shared buff/cache available\nMem: 31Gi 9Gi 12Gi 1Gi 10Gi 22Gi\nSwap: 0B 0B 0B\n"
    loadavg := some "0.52 0.58 0.59 1/1206 714217\n"
    nmcliGeneral := .exited 0 "connected:full:enabled:enabled:enabled:enabled\n"
    nmcliConnShow := .exited 0 "MyWifi:b2f3:802-11-wireless:wlan0\n"
    pamixer := .exited 0 "false 55\n"
    now := ⟨2026, 10, 12, 9, 5⟩ }

/-- `envW` with `df -h /` failing with exit status 1. -/
def envFailDf : Env := { envW with df := .exited 1 "" }

/-- The startup registry with concrete instance ids. -/
def stW : SLState := mainState "1" "2" "3" "4" "5" "6"

/-- The key list of a JSON object (and `[]` for any other value). -/
def jsonKeys : Json → List String
  | .obj fs => fs.map Prod.fst
  | _ => []

/-- A decoded button-1 click event addressed to the `BCPU` block of `stW`. -/
def evClick1 : Json := .obj [("instance", .str "1"), ("button", .num 1)]

/-- A decoded button-1 click event addressed to the `BVolume` block of
`stW`. -/
def evClick4 : Json :=
  .obj [("name", .str "BVolume"), ("instance", .str "4"), ("button", .num 1)]

/-- A decoded button-1 click event addressed to the `BNetwork` block of
`stW`. -/
def evClick5 : Json := .obj [("instance", .str "5"), ("button", .num 1)]

/-- The outcome of `out_once` on `stW`'s `BCPU` block under `envW`. -/
def cpuStep : StepOut :=
  ⟨⟨regWith "1" "2" "3" "4" "5" "6" "\uf2db 0.58" "" "" "" "" ""⟩,
   [sl_print ⟨regWith "1" "2" "3" "4" "5" "6" "\uf2db 0.58" "" "" "" "" ""⟩],
   [], [], []⟩

/-- The outcome of `out_once` on `stW`'s `BVolume` block under `envW`. -/
def volStep : StepOut :=
  ⟨⟨regWith "1" "2" "3" "4" "5" "6" "" "" "" "\uf028 55%" "" ""⟩,
   [sl_print ⟨regWith "1" "2" "3" "4" "5" "6" "" "" "" "\uf028 55%" "" ""⟩],
   [], [], []⟩

/-- The outcome of `out_once` on `stW`'s `BDateTime` block under `envW`. -/
def dtStep : StepOut :=
  ⟨⟨regWith "1" "2" "3" "4" "5" "6" "" "" "" "" "" "\uf073 2026/10/12 \uf017 09:05"⟩,
   [sl_print ⟨regWith "1" "2" "3" "4" "5" "6" "" "" "" "" "" "\uf073 2026/10/12 \uf017 09:05"⟩],
   [], [], []⟩

/-! ### Characterization lemmas -/

theorem blk_set_text (k : BlockKind) (inst t u : String) :
    { blk k inst t with full_text := u } = blk k inst u := rfl

theorem out_once_ok {e : Env} {st : SLState} {i : Nat} {r : StepOut}
    (h : out_once e st i = .ok r) :
    ∃ kb text, st.blocks[i]? = some kb ∧ gather kb.2.kind e = .ok text ∧
      r = ⟨⟨st.blocks.set i (kb.1, { kb.2 with full_text := text })⟩,
           [sl_print ⟨st.blocks.set i (kb.1, { kb.2 with full_text := text })⟩],
           [], [], []⟩ := by
  unfold out_once pyIdx at h
  cases hkb : st.blocks[i]? with
  | none => rw [hkb] at h; simp [Bind.bind, Except.bind] at h
  | some kb =>
    rw [hkb] at h
    simp only [Bind.bind, Except.bind] at h
    cases hg : gather kb.2.kind e with
    | error err => rw [hg] at h; simp at h
    | ok text =>
      rw [hg] at h
      simp only [Except.ok.injEq] at h
      exact ⟨kb, text, rfl, hg, h.symm⟩

theorem shaped_out_once {i1 i2 i3 i4 i5 i6 : String} {e : Env} {st : SLState}
    {i : Nat} {r : StepOut} (hsh : shaped i1 i2 i3 i4 i5 i6 st)
    (h : out_once e st i = .ok r) : shaped i1 i2 i3 i4 i5 i6 r.state := by
  obtain ⟨t1, t2, t3, t4, t5, t6, hb⟩ := hsh
  obtain ⟨kb, text, hkb, hg, hr⟩ := out_once_ok h
  rw [hb] at hkb
  subst hr
  rcases i with _ | _ | _ | _ | _ | _ | i
  · simp only [regWith, List.getElem?_cons_zero, Option.some.injEq] at hkb
    exact ⟨text, t2, t3, t4, t5, t6, by rw [hb, ← hkb]; rfl⟩
  · simp only [regWith, List.getElem?_cons_succ, List.getElem?_cons_zero,
      Option.some.injEq] at hkb
    exact ⟨t1, text, t3, t4, t5, t6, by rw [hb, ← hkb]; rfl⟩
  · simp only [regWith, List.getElem?_cons_succ, List.getElem?_cons_zero,
      Option.some.injEq] at hkb
    exact ⟨t1, t2, text, t4, t5, t6, by rw [hb, ← hkb]; rfl⟩
  · simp only [regWith, List.getElem?_cons_succ, List.getElem?_cons_zero,
      Option.some.injEq] at hkb
    exact ⟨t1, t2, t3, text, t5, t6, by rw [hb, ← hkb]; rfl⟩
  · simp only [regWith, List.getElem?_cons_succ, List.getElem?_cons_zero,
      Option.some.injEq] at hkb
    exact ⟨t1, t2, t3, t4, text, t6, by rw [hb, ← hkb]; rfl⟩
  · simp only [regWith, List.getElem?_cons_succ, List.getElem?_cons_zero,
      Option.some.injEq] at hkb
    exact ⟨t1, t2, t3, t4, t5, text, by rw [hb, ← hkb]; rfl⟩
  · simp [regWith] at hkb

theorem on_click_state {e : Env} {st : SLState} {i : Nat} {ev : Json}
    {r : StepOut} (h : on_click e st i ev = .ok r) :
    r.state = st ∨ ∃ r', out_once e st i = .ok r' ∧ r.state = r'.state := by
  unfold on_click pyIdx at h
  cases hkb : st.blocks[i]? with
  | none => rw [hkb] at h; simp [Bind.bind, Except.bind] at h
  | some kb =>
    rw [hkb] at h
    simp only [Bind.bind, Except.bind] at h
    cases hk : kb.2.kind with
    | BNetwork =>
      rw [hk] at h; dsimp only at h
      cases hbtn : jGetField ev "button" with
      | error err => rw [hbtn] at h; simp at h
      | ok btn =>
        rw [hbtn] at h; dsimp only at h
        by_cases hb1 : jEqInt btn 1 = true
        · rw [if_pos hb1] at h
          simp only [Except.ok.injEq] at h
          left; rw [← h]
        · rw [if_neg hb1] at h
          simp only [Except.ok.injEq] at h
          left; rw [← h]; rfl
    | BVolume =>
      rw [hk] at h; dsimp only at h
      cases hbtn : jGetField ev "button" with
      | error err => rw [hbtn] at h; simp at h
      | ok btn =>
        rw [hbtn] at h; dsimp only at h
        cases hoo : out_once e st i with
        | error err => rw [hoo] at h; simp at h
        | ok r' =>
          rw [hoo] at h
          simp only [Except.ok.injEq] at h
          right; exact ⟨r', rfl, by rw [← h]⟩
    | BCPU =>
      rw [hk] at h; dsimp only at h
      exact Or.inr ⟨r, h, rfl⟩
    | BRAM =>
      rw [hk] at h; dsimp only at h
      exact Or.inr ⟨r, h, rfl⟩
    | BDisk =>
      rw [hk] at h; dsimp only at h
      exact Or.inr ⟨r, h, rfl⟩
    | BDateTime =>
      rw [hk] at h; dsimp only at h
      exact Or.inr ⟨r, h, rfl⟩

theorem click_line_state {e : Env} {st : SLState} {line : String} {r : StepOut}
    (h : click_line e st line = .ok r) :
    r.state = st ∨ ∃ i ev r', on_click e st i ev = .ok r' ∧ r.state = r'.state := by
  unfold click_line at h
  by_cases hl : startsWithBracket line = true
  · rw [if_pos hl] at h
    simp only [Except.ok.injEq] at h
    left; rw [← h]; rfl
  · rw [if_neg hl] at h
    simp only [Bind.bind, Except.bind] at h
    cases hj : json_loads (pyLstripComma line) with
    | error err => rw [hj] at h; simp at h
    | ok ev =>
      rw [hj] at h; dsimp only at h
      cases hiv : jGetField ev "instance" with
      | error err => rw [hiv] at h; simp at h
      | ok instVal =>
        rw [hiv] at h; dsimp only at h
        cases instVal with
        | str s =>
          dsimp only at h
          cases hfi : findBlockIdx st s with
          | none => rw [hfi] at h; simp at h
          | some i =>
            rw [hfi] at h; dsimp only at h
            cases hoc : on_click e st i ev with
            | error err => rw [hoc] at h; simp at h
            | ok r' =>
              rw [hoc] at h
              simp only [Except.ok.injEq] at h
              right; exact ⟨i, ev, r', hoc, by rw [← h]⟩
        | null => simp at h
        | bool b => simp at h
        | num n => simp at h
        | arr es => simp at h
        | obj fs => simp at h

theorem on_signal_state {e : Env} {st : SLState} {i : Nat} {sig : Nat}
    {r : StepOut} (h : on_signal e st i sig = .ok r) :
    r.state = st ∨ ∃ r', out_once e st i = .ok r' ∧ r.state = r'.state := by
  unfold on_signal pyIdx at h
  cases hkb : st.blocks[i]? with
  | none => rw [hkb] at h; simp [Bind.bind, Except.bind] at h
  | some kb =>
    rw [hkb] at h
    simp only [Bind.bind, Except.bind] at h
    cases hk : kb.2.kind with
    | BVolume =>
      rw [hk] at h; dsimp only at h
      by_cases hs : sig = RTSIG
      · rw [if_pos hs] at h
        exact Or.inr ⟨r, h, rfl⟩
      · rw [if_neg hs] at h
        simp only [Except.ok.injEq] at h
        left; rw [← h]; rfl
    | BCPU =>
      rw [hk] at h; dsimp only at h
      simp only [Except.ok.injEq] at h
      left; rw [← h]; rfl
    | BRAM =>
      rw [hk] at h; dsimp only at h
      simp only [Except.ok.injEq] at h
      left; rw [← h]; rfl
    | BDisk =>
      rw [hk] at h; dsimp only at h
      simp only [Except.ok.injEq] at h
      left; rw [← h]; rfl
    | BNetwork =>
      rw [hk] at h; dsimp only at h
      simp only [Except.ok.injEq] at h
      left; rw [← h]; rfl
    | BDateTime =>
      rw [hk] at h; dsimp only at h
      simp only [Except.ok.injEq] at h
      left; rw [← h]; rfl

theorem shaped_on_click {i1 i2 i3 i4 i5 i6 : String} {e : Env} {st : SLState}
    {i : Nat} {ev : Json} {r : StepOut} (hsh : shaped i1 i2 i3 i4 i5 i6 st)
    (h : on_click e st i ev = .ok r) : shaped i1 i2 i3 i4 i5 i6 r.state := by
  rcases on_click_state h with hst | ⟨r', hoo, hst⟩
  · rw [hst]; exact hsh
  · rw [hst]; exact shaped_out_once hsh hoo

theorem shaped_click_line {i1 i2 i3 i4 i5 i6 : String} {e : Env} {st : SLState}
    {line : String} {r : StepOut} (hsh : shaped i1 i2 i3 i4 i5 i6 st)
    (h : click_line e st line = .ok r) : shaped i1 i2 i3 i4 i5 i6 r.state := by
  rcases click_line_state h with hst | ⟨i, ev, r', hoc, hst⟩
  · rw [hst]; exact hsh
  · rw [hst]; exact shaped_on_click hsh hoc

theorem shaped_on_signal {i1 i2 i3 i4 i5 i6 : String} {e : Env} {st : SLState}
    {i sig : Nat} {r : StepOut} (hsh : shaped i1 i2 i3 i4 i5 i6 st)
    (h : on_signal e st i sig = .ok r) : shaped i1 i2 i3 i4 i5 i6 r.state := by
  rcases on_signal_state h with hst | ⟨r', hoo, hst⟩
  · rw [hst]; exact hsh
  · rw [hst]; exact shaped_out_once hsh hoo

theorem shaped_signal_go {i1 i2 i3 i4 i5 i6 : String} {e : Env} {sig : Nat}
    {n : Nat} : ∀ {st : SLState} {i : Nat} {r : StepOut},
    shaped i1 i2 i3 i4 i5 i6 st → signal_go e sig st i n = .ok r →
    shaped i1 i2 i3 i4 i5 i6 r.state := by
  induction n with
  | zero =>
    intro st i r hsh h
    unfold signal_go at h
    simp only [Except.ok.injEq] at h
    rw [← h]; exact hsh
  | succ n ih =>
    intro st i r hsh h
    unfold signal_go pyIdx at h
    cases hkb : st.blocks[i]? with
    | none => rw [hkb] at h; simp [Bind.bind, Except.bind] at h
    | some kb =>
      rw [hkb] at h
      simp only [Bind.bind, Except.bind] at h
      cases hos : on_signal e st i sig with
      | error err => rw [hos] at h; simp at h
      | ok r1 =>
        rw [hos] at h; dsimp only at h
        cases hrest : signal_go e sig r1.state (i + 1) n with
        | error err => rw [hrest] at h; simp at h
        | ok rest =>
          rw [hrest] at h
          simp only [Except.ok.injEq] at h
          have hsh1 := shaped_on_signal hsh hos
          have hsh2 := ih hsh1 hrest
          rw [← h]; exact hsh2

theorem shaped_signal_handler {i1 i2 i3 i4 i5 i6 : String} {e : Env}
    {st : SLState} {sig : Nat} {r : StepOut}
    (hsh : shaped i1 i2 i3 i4 i5 i6 st) (h : signal_handler e st sig = .ok r) :
    shaped i1 i2 i3 i4 i5 i6 r.state :=
  shaped_signal_go hsh h

theorem reachable_shaped {i1 i2 i3 i4 i5 i6 : String} {init st : SLState}
    (hsh : shaped i1 i2 i3 i4 i5 i6 init) (h : Reachable init st) :
    shaped i1 i2 i3 i4 i5 i6 st := by
  induction h with
  | refl => exact hsh
  | update _ hstep ih => exact shaped_out_once ih hstep
  | click _ hstep ih => exact shaped_click_line ih hstep
  | signal _ hstep ih => exact shaped_signal_handler ih hstep

theorem mainState_blocks {i1 i2 i3 i4 i5 i6 : String}
    (h : ([i1, i2, i3, i4, i5, i6] : List String).Nodup) :
    (mainState i1 i2 i3 i4 i5 i6).blocks =
      regWith i1 i2 i3 i4 i5 i6 "" "" "" "" "" "" := by
  simp only [List.nodup_cons, List.mem_cons, List.mem_singleton,
    List.not_mem_nil, or_false, not_or, List.nodup_nil, and_true] at h
  obtain ⟨⟨h12, h13, h14, h15, h16⟩, ⟨h23, h24, h25, h26⟩, ⟨h34, h35, h36⟩,
    ⟨h45, h46⟩, h56⟩ := h
  simp [mainState, add_block, dictInsert, regWith, blk, Block.init,
    beq_iff_eq, h12, h13, h14, h15, h16, h23, h24, h25, h26, h34, h35, h36,
    h45, h46, h56]

theorem mainState_shaped {i1 i2 i3 i4 i5 i6 : String}
    (h : ([i1, i2, i3, i4, i5, i6] : List String).Nodup) :
    shaped i1 i2 i3 i4 i5 i6 (mainState i1 i2 i3 i4 i5 i6) :=
  ⟨"", "", "", "", "", "", mainState_blocks h⟩

/-! ### The claims -/

/-- C1: in every reachable state, each render request emits exactly one
stdout line, a comma separator followed by the JSON array of block objects;
the array has one object per registered block, in registration order (BCPU,
BRAM, BDisk, BVolume, BNetwork, BDateTime, under their startup instance
ids); and each object carries `full_text`, the style fields at their fixed
default values, `name`, and `instance` (the block's id as a string). -/
theorem renderer_emits_single_protocol_line (i1 i2 i3 i4 i5 i6 : String)
    (hnd : ([i1, i2, i3, i4, i5, i6] : List String).Nodup) (st : SLState)
    (h : Reachable (mainState i1 i2 i3 i4 i5 i6) st) :
    (∀ (e : Env) (i : Nat) (r : StepOut), out_once e st i = .ok r →
      r.lines = [sl_print r.state]) ∧
    (∃ t1 t2 t3 t4 t5 t6,
      st.blocks = regWith i1 i2 i3 i4 i5 i6 t1 t2 t3 t4 t5 t6 ∧
      sl_print st = ", " ++ dumps (.arr [(blk .BCPU i1 t1).toJson,
        (blk .BRAM i2 t2).toJson, (blk .BDisk i3 t3).toJson,
        (blk .BVolume i4 t4).toJson, (blk .BNetwork i5 t5).toJson,
        (blk .BDateTime i6 t6).toJson])) ∧
    (∀ (k : BlockKind) (inst t : String), (blk k inst t).toJson =
      .obj [("full_text", .str t), ("border", .str "#282828"),
            ("border_top", .num 0), ("border_bottom", .num 2),
            ("border_left", .num 0), ("border_right", .num 0),
            ("min_width", .num 50), ("align", .str "center"),
            ("name", .str k.className), ("instance", .str inst)]) := by
  refine ⟨?_, ?_, ?_⟩
  · intro e i r hr
    obtain ⟨kb, text, _, _, hrr⟩ := out_once_ok hr
    rw [hrr]
  · obtain ⟨t1, t2, t3, t4, t5, t6, hb⟩ :=
      reachable_shaped (mainState_shaped hnd) h
    exact ⟨t1, t2, t3, t4, t5, t6, hb, by rw [sl_print, hb]; rfl⟩
  · intro k inst t
    cases k <;> rfl

/-- C1 witness: the property instantiated at the startup state with
concrete instance ids. -/
theorem renderer_emits_single_protocol_line_check :
    (∀ (e : Env) (i : Nat) (r : StepOut), out_once e stW i = .ok r →
      r.lines = [sl_print r.state]) ∧
    (∃ t1 t2 t3 t4 t5 t6,
      stW.blocks = regWith "1" "2" "3" "4" "5" "6" t1 t2 t3 t4 t5 t6 ∧
      sl_print stW = ", " ++ dumps (.arr [(blk .BCPU "1" t1).toJson,
        (blk .BRAM "2" t2).toJson, (blk .BDisk "3" t3).toJson,
        (blk .BVolume "4" t4).toJson, (blk .BNetwork "5" t5).toJson,
        (blk .BDateTime "6" t6).toJson])) ∧
    (∀ (k : BlockKind) (inst t : String), (blk k inst t).toJson =
      .obj [("full_text", .str t), ("border", .str "#282828"),
            ("border_top", .num 0), ("border_bottom", .num 2),
            ("border_left", .num 0), ("border_right", .num 0),
            ("min_width", .num 50), ("align", .str "center"),
            ("name", .str k.className), ("instance", .str inst)]) :=
  renderer_emits_single_protocol_line "1" "2" "3" "4" "5" "6" (by decide)
    stW Reachable.refl

/-- C2: before any render line and before reading any input, startup writes
exactly three preamble lines, in order: the protocol header object, the
array-open line, and the empty-array line; the registry it then builds
holds the six blocks in registration order with default payloads. -/
theorem startup_preamble_exact (i1 i2 i3 i4 i5 i6 : String)
    (hnd : ([i1, i2, i3, i4, i5, i6] : List String).Nodup) :
    (main_startup i1 i2 i3 i4 i5 i6).2 =
      ["\x7b\"version\": 1, \"click_events\": true\x7d", "[", "[]"] ∧
    (main_startup i1 i2 i3 i4 i5 i6).1.blocks =
      regWith i1 i2 i3 i4 i5 i6 "" "" "" "" "" "" :=
  ⟨rfl, mainState_blocks hnd⟩

/-- C2 witness: the preamble at concrete instance ids. -/
theorem startup_preamble_exact_check :
    (main_startup "1" "2" "3" "4" "5" "6").2 =
      ["\x7b\"version\": 1, \"click_events\": true\x7d", "[", "[]"] ∧
    (main_startup "1" "2" "3" "4" "5" "6").1.blocks =
      regWith "1" "2" "3" "4" "5" "6" "" "" "" "" "" "" :=
  startup_preamble_exact "1" "2" "3" "4" "5" "6" (by decide)

/-- C3 counterexample: on a malformed input line the router does not log
and skip; `json.loads` raises and the error escapes the router step,
terminating the router task. -/
theorem router_decode_failure_cex :
    click_line envW stW "garbage\n" = .error .jsonDecodeError := by rfl

/-- C3 (amended): for every input line that is not skipped by the leading
bracket check and whose comma-stripped remainder fails to decode, the
decode error propagates out of the router's line-handling step (no dispatch
happens and nothing is printed); the router task terminates on it rather
than continuing. -/
theorem router_decode_failure_propagates (e : Env) (st : SLState)
    (line : String) (err : Err) (hl : ¬ startsWithBracket line = true)
    (hj : json_loads (pyLstripComma line) = .error err) :
    click_line e st line = .error err := by
  unfold click_line
  rw [if_neg hl]
  simp only [Bind.bind, Except.bind]
  rw [hj]

/-- C3 witness: the amended behavior at the concrete line `garbage`. -/
theorem router_decode_failure_propagates_check :
    (¬ startsWithBracket "garbage\n" = true) ∧
    click_line envW stW "garbage\n" = .error .jsonDecodeError :=
  ⟨by decide, router_decode_failure_propagates envW stW "garbage\n"
    .jsonDecodeError (by decide) (by rfl)⟩

/-- C4 counterexample: a well-formed click event with an unregistered
instance id does not leave the router silently continuing; the dict lookup
raises `KeyError`, which escapes the router step. -/
theorem router_unknown_instance_cex :
    click_line envW stW ",\x7b\"instance\": \"99\", \"button\": 1\x7d\n" =
      .error .keyError := by rfl

/-- C4 (amended): for every well-formed click-event line whose instance id
matches no registered block, no click handler runs and nothing is printed,
but the router does not silently continue: the lookup raises `KeyError`,
which propagates out of the router's line-handling step. -/
theorem router_unknown_instance_keyerror (e : Env) (st : SLState)
    (line : String) (ev : Json) (s : String)
    (hl : ¬ startsWithBracket line = true)
    (hj : json_loads (pyLstripComma line) = .ok ev)
    (hi : jGetField ev "instance" = .ok (.str s))
    (hf : findBlockIdx st s = none) :
    click_line e st line = .error .keyError := by
  unfold click_line
  rw [if_neg hl]
  simp only [Bind.bind, Except.bind]
  rw [hj]; dsimp only
  rw [hi]; dsimp only
  rw [hf]

/-- C4 witness: the amended behavior at a concrete stale click event. -/
theorem router_unknown_instance_keyerror_check :
    findBlockIdx stW "99" = none ∧
    click_line envW stW ",\x7b\"instance\": \"99\", \"button\": 1\x7d\n" =
      .error .keyError :=
  ⟨by rfl, router_unknown_instance_keyerror envW stW
    ",\x7b\"instance\": \"99\", \"button\": 1\x7d\n"
    (.obj [("instance", .str "99"), ("button", .num 1)]) "99"
    (by decide) (by rfl) (by rfl) (by rfl)⟩

/-- C5 counterexample: with `df -h /` exiting nonzero, the resulting
`CalledProcessError` is not swallowed inside `BDisk`'s `update()`: it
escapes `out_once` (registry position 2), aborting the update with no
render. -/
theorem update_error_swallow_cex :
    out_once envFailDf stW 2 = .error .calledProcessError := by rfl

/-- C5 (amended): an error raised while gathering data propagates out of
`update()`: whenever a block's gather step fails, `out_once` returns that
same error and emits no render, so the error escapes the block's update
loop.  The one mitigation in the code is that `BVolume` passes
`check=False`, so its gather ignores the pamixer exit status and depends
only on the command's stdout. -/
theorem update_gather_error_propagates :
    (∀ (e : Env) (st : SLState) (i : Nat) (kb : String × Block) (err : Err),
      st.blocks[i]? = some kb → gather kb.2.kind e = .error err →
      out_once e st i = .error err) ∧
    (∀ (e : Env) (code : Nat) (out : String),
      gather .BVolume { e with pamixer := .exited code out } =
        gather .BVolume { e with pamixer := .exited 0 out }) := by
  constructor
  · intro e st i kb err hkb hg
    unfold out_once pyIdx
    rw [hkb]
    simp only [Bind.bind, Except.bind]
    rw [hg]
  · intro e code out
    rfl

/-- C5 witness: the amended behavior at the failing `df` snapshot and at a
nonzero pamixer exit status. -/
theorem update_gather_error_propagates_check :
    stW.blocks[2]? = some ("3", blk .BDisk "3" "") ∧
    out_once envFailDf stW 2 = .error .calledProcessError ∧
    gather .BVolume { envW with pamixer := .exited 5 "true 20\n" } =
      gather .BVolume { envW with pamixer := .exited 0 "true 20\n" } :=
  ⟨by rfl,
   update_gather_error_propagates.1 envFailDf stW 2 ("3", blk .BDisk "3" "")
     .calledProcessError (by rfl) (by rfl),
   update_gather_error_propagates.2 envW 5 "true 20\n"⟩

/-- C6: for every router line, a line starting with the array-open token is
skipped with no dispatch and no output; any other line has its leading
commas stripped and decoded, and when the decoded event's instance id is
registered at position `i`, exactly that block's `on_click` runs with the
event (the dispatch trace is that single id). -/
theorem router_dispatch_unique :
    (∀ (e : Env) (st : SLState) (line : String),
      startsWithBracket line = true →
      click_line e st line = .ok (StepOut.noop st)) ∧
    (∀ (e : Env) (st : SLState) (line : String) (ev : Json) (s : String)
      (i : Nat) (r : StepOut),
      ¬ startsWithBracket line = true →
      json_loads (pyLstripComma line) = .ok ev →
      jGetField ev "instance" = .ok (.str s) →
      findBlockIdx st s = some i →
      on_click e st i ev = .ok r →
      click_line e st line = .ok { r with dispatched := [s] }) := by
  constructor
  · intro e st line hl
    unfold click_line
    rw [if_pos hl]
  · intro e st line ev s i r hl hj hi hf hoc
    unfold click_line
    rw [if_neg hl]
    simp only [Bind.bind, Except.bind]
    rw [hj]; dsimp only
    rw [hi]; dsimp only
    rw [hf]; dsimp only
    rw [hoc]

/-- C6 witness: the array-open line is skipped, and a concrete click on the
`BCPU` block dispatches to exactly that block. -/
theorem router_dispatch_unique_check :
    click_line envW stW "[\n" = .ok (StepOut.noop stW) ∧
    click_line envW stW ",\x7b\"instance\": \"1\", \"button\": 1\x7d\n" =
      .ok { cpuStep with dispatched := ["1"] } :=
  ⟨router_dispatch_unique.1 envW stW "[\n" (by rfl),
   router_dispatch_unique.2 envW stW
     ",\x7b\"instance\": \"1\", \"button\": 1\x7d\n" evClick1 "1" 0 cpuStep
     (by decide) (by rfl) (by rfl) (by rfl) (by rfl)⟩

/-- C7: delivering the registered real-time signal (SIGRTMIN+15) invokes
`on_signal` on every block in registration order (the `signaled` trace
lists all six ids in order); the signal-aware `BVolume` re-runs its update
from the environment and exactly one render line is emitted, independently
of any timer. -/
theorem signal_broadcast_updates_bvolume
    (i1 i2 i3 i4 i5 i6 t1 t2 t3 t4 t5 t6 : String) (e : Env) (st : SLState)
    (v : String)
    (hb : st.blocks = regWith i1 i2 i3 i4 i5 i6 t1 t2 t3 t4 t5 t6)
    (hvol : gather .BVolume e = .ok v) :
    signal_handler e st RTSIG =
      .ok ⟨⟨regWith i1 i2 i3 i4 i5 i6 t1 t2 t3 v t5 t6⟩,
           [sl_print ⟨regWith i1 i2 i3 i4 i5 i6 t1 t2 t3 v t5 t6⟩],
           [], [], [i1, i2, i3, i4, i5, i6]⟩ := by
  obtain ⟨blocks⟩ := st
  simp only at hb
  subst hb
  simp [signal_handler, signal_go, on_signal, out_once, pyIdx, regWith, blk,
    Block.init, hvol, StepOut.noop, Bind.bind, Except.bind]

/-- C7 witness: the broadcast at the startup registry under `envW`. -/
theorem signal_broadcast_updates_bvolume_check :
    stW.blocks = regWith "1" "2" "3" "4" "5" "6" "" "" "" "" "" "" ∧
    signal_handler envW stW RTSIG =
      .ok ⟨⟨regWith "1" "2" "3" "4" "5" "6" "" "" "" "\uf028 55%" "" ""⟩,
           [sl_print ⟨regWith "1" "2" "3" "4" "5" "6" "" "" "" "\uf028 55%" "" ""⟩],
           [], [], ["1", "2", "3", "4", "5", "6"]⟩ :=
  ⟨by rfl,
   signal_broadcast_updates_bvolume "1" "2" "3" "4" "5" "6" "" "" "" "" "" ""
     envW stW "\uf028 55%" (by rfl) (by rfl)⟩

/-- C8 counterexample: `BNetwork.on_click` (registry position 4) on a
button-1 event performs its side effect (launching the connection editor)
but never calls `update()`: the state is unchanged and no render line is
emitted, contradicting the claimed default of ending in `update()`. -/
theorem bnetwork_click_no_update_cex :
    on_click envW stW 4 evClick5 =
      .ok ⟨stW, [], [["nm-connection-editor"]], [], []⟩ := by rfl

/-- C8 (amended): blocks without their own click behavior (BCPU, BRAM,
BDisk, BDateTime) have `onClick` equivalent to `update()` alone; `BVolume`
performs its button-specific mixer side effect and then calls `update()`;
`BNetwork`, however, launches the connection editor on button 1 and never
calls `update()`. -/
theorem on_click_behavior_by_variant :
    (∀ (e : Env) (st : SLState) (i : Nat) (kb : String × Block) (ev : Json),
      st.blocks[i]? = some kb →
      kb.2.kind ≠ .BNetwork → kb.2.kind ≠ .BVolume →
      on_click e st i ev = out_once e st i) ∧
    (∀ (e : Env) (st : SLState) (i : Nat) (kb : String × Block) (ev : Json)
      (btn : Json) (r : StepOut),
      st.blocks[i]? = some kb → kb.2.kind = .BVolume →
      jGetField ev "button" = .ok btn → out_once e st i = .ok r →
      on_click e st i ev = .ok { r with cmds := bvolume_cmds btn ++ r.cmds }) ∧
    (∀ (e : Env) (st : SLState) (i : Nat) (kb : String × Block) (ev : Json)
      (btn : Json),
      st.blocks[i]? = some kb → kb.2.kind = .BNetwork →
      jGetField ev "button" = .ok btn →
      on_click e st i ev =
        .ok ⟨st, [],
             if jEqInt btn 1 then [["nm-connection-editor"]] else [],
             [], []⟩) := by
  refine ⟨?_, ?_, ?_⟩
  · intro e st i kb ev hkb hnet hvol
    unfold on_click pyIdx
    rw [hkb]
    simp only [Bind.bind, Except.bind]
  · intro e st i kb ev btn r hkb hk hbtn hoo
    unfold on_click pyIdx
    rw [hkb]
    simp only [Bind.bind, Except.bind]
    rw [hk]; dsimp only
    rw [hbtn]; dsimp only
    rw [hoo]
  · intro e st i kb ev btn hkb hk hbtn
    unfold on_click pyIdx
    rw [hkb]
    simp only [Bind.bind, Except.bind]
    rw [hk]; dsimp only
    rw [hbtn]; dsimp only
    by_cases hb1 : jEqInt btn 1 = true
    · rw [if_pos hb1, if_pos hb1]
    · rw [if_neg hb1, if_neg hb1]; rfl

/-- C8 witness: the three behaviors at concrete blocks of `stW` under
`envW`. -/
theorem on_click_behavior_by_variant_check :
    on_click envW stW 0 evClick1 = out_once envW stW 0 ∧
    on_click envW stW 3 evClick4 =
      .ok { volStep with
            cmds := bvolume_cmds (Json.num 1) ++ volStep.cmds } ∧
    on_click envW stW 4 evClick5 =
      .ok ⟨stW, [],
           if jEqInt (Json.num 1) 1 then [["nm-connection-editor"]] else [],
           [], []⟩ :=
  ⟨on_click_behavior_by_variant.1 envW stW 0 ("1", blk .BCPU "1" "") evClick1
     (by rfl) (by decide) (by decide),
   on_click_behavior_by_variant.2.1 envW stW 3 ("4", blk .BVolume "4" "")
     evClick4 (Json.num 1) volStep (by rfl) (by rfl) (by rfl) (by rfl),
   on_click_behavior_by_variant.2.2 envW stW 4 ("5", blk .BNetwork "5" "")
     evClick5 (Json.num 1) (by rfl) (by rfl) (by rfl)⟩

/-- C9: `update()` is idempotent: if one `out_once` succeeds, running it
again immediately with the external data sources (including the clock)
unchanged succeeds with the very same outcome: identical payload, identical
render line. -/
theorem update_idempotent (e : Env) (st : SLState) (i : Nat) (r : StepOut)
    (h : out_once e st i = .ok r) : out_once e r.state i = .ok r := by
  obtain ⟨kb, text, hkb, hg, hr⟩ := out_once_ok h
  have hlen : i < st.blocks.length := by
    by_contra hge
    rw [List.getElem?_eq_none_iff.mpr (le_of_not_lt hge)] at hkb
    cases hkb
  subst hr
  unfold out_once pyIdx
  rw [List.getElem?_set_self (by simpa using hlen)]
  simp only [Bind.bind, Except.bind]
  rw [show ({ kb.2 with full_text := text } : Block).kind = kb.2.kind from rfl,
    hg]
  simp only [List.set_set]

/-- C9 witness: the date/time block's update under the fixed clock of
`envW`, run twice. -/
theorem update_idempotent_check :
    out_once envW stW 5 = .ok dtStep ∧
    out_once envW dtStep.state 5 = .ok dtStep :=
  ⟨by rfl, update_idempotent envW stW 5 dtStep (by rfl)⟩

/-- C10: in every reachable state the registry still holds the six startup
blocks in order, and each differs from its construction-time value at most
in `full_text`: `name`, `instance` and all style fields keep their
construction values; moreover every rendered block object carries all ten
keys. -/
theorem payload_frame_invariant (i1 i2 i3 i4 i5 i6 : String)
    (hnd : ([i1, i2, i3, i4, i5, i6] : List String).Nodup) (st : SLState)
    (h : Reachable (mainState i1 i2 i3 i4 i5 i6) st) :
    (∃ t1 t2 t3 t4 t5 t6,
      st.blocks = regWith i1 i2 i3 i4 i5 i6 t1 t2 t3 t4 t5 t6) ∧
    ∀ p ∈ st.blocks, jsonKeys p.2.toJson =
      ["full_text", "border", "border_top", "border_bottom", "border_left",
       "border_right", "min_width", "align", "name", "instance"] :=
  ⟨reachable_shaped (mainState_shaped hnd) h, fun _ _ => rfl⟩

/-- C10 witness: the frame property at the startup state with concrete
ids. -/
theorem payload_frame_invariant_check :
    (∃ t1 t2 t3 t4 t5 t6,
      stW.blocks = regWith "1" "2" "3" "4" "5" "6" t1 t2 t3 t4 t5 t6) ∧
    ∀ p ∈ stW.blocks, jsonKeys p.2.toJson =
      ["full_text", "border", "border_top", "border_bottom", "border_left",
       "border_right", "min_width", "align", "name", "instance"] :=
  payload_frame_invariant "1" "2" "3" "4" "5" "6" (by decide) stW
    Reachable.refl

end StatusLine
